import Mathlib

/-!
Verification of the session orchestration and persistence subsystem of the
ai_tutor repository, as a shallow embedding of the Python source.

Source files embedded here:
- src/ai_tutor/tools/storage.py   (UserProgressStore: JSON and SQLite backends)
- src/ai_tutor/tools/context.py   (TutorContext: save_progress, load_progress,
  create_default_study_plan, update_mastery_level)
- src/ai_tutor/tools/user_tools.py (save_study_plan, save_quiz_results)
- src/ai_tutor/tutor_system.py    (process_agent_handoff_chain and the
  completion-marker check in complete_learning_objective)

Modelling conventions:
- Python dicts are insertion-ordered association lists; assignment `d[k] = v`
  is `alistInsert` (replace in place, else append), lookup `d.get(k)` is
  `alistGet`.
- Python floats are modelled as rationals.
- `uuid.uuid4()` and `time.strftime(...)` / `datetime.now()` are modelled as
  explicit `freshId` / `now` parameters, making the functions deterministic.
- I/O failure branches (file unwritable, JSON parse errors) are not modelled:
  the flat-file store is a pure map from user id to document, so the happy
  path of each try block is the modelled behaviour.
-/

set_option autoImplicit false

namespace AiTutor

/-- Lookup in an insertion-ordered association list (Python `dict.get`). -/
def alistGet {κ α : Type} [DecidableEq κ] : List (κ × α) → κ → Option α
  | [], _ => none
  | e :: rest, k => if e.1 = k then some e.2 else alistGet rest k

/-- Assignment in an insertion-ordered association list (Python `d[k] = v`):
replaces the entry in place if the key is present, appends otherwise. -/
def alistInsert {κ α : Type} [DecidableEq κ] : List (κ × α) → κ → α → List (κ × α)
  | [], k, v => [(k, v)]
  | e :: rest, k, v => if e.1 = k then (k, v) :: rest else e :: alistInsert rest k v

/-- The keys of an association list. -/
def alistKeys {κ α : Type} (l : List (κ × α)) : List κ := l.map Prod.fst

/-- Python truthiness of an optional string: `None` and the empty string are
falsy (`if not self.objective_id: ...`). -/
def strTruthy : Option String → Bool
  | none => false
  | some s => !(s = "")

/-! ### Data model (src/ai_tutor/agents/planner_agent.py, quiz_agent.py) -/

/-- The pydantic `StudyPlan` model: every instance carries the four fields
(`estimated_time` and `prerequisites` default to empty dicts). -/
structure StudyPlan where
  topics : List String
  learning_path : List String
  estimated_time : List (String × String)
  prerequisites : List (String × List String)
  deriving DecidableEq

/-- The pydantic `QuizQuestion` model. -/
structure QuizQuestion where
  text : String
  correct_answer : String
  explanation : String
  difficulty : String
  options : Option (List String)
  deriving DecidableEq

/-- The pydantic `Quiz` model. -/
structure Quiz where
  topic : String
  questions : List QuizQuestion
  time_limit : String
  deriving DecidableEq

/-- One entry of `TutorContext.quiz_results`: the dict
`{"quiz": quiz, "user_answers": answers}` built by `store_quiz_answers` and
`load_progress`.  `save_progress` reads it back with `result.get('quiz')`,
so the quiz is optional. -/
structure QuizResultEntry where
  quiz : Option Quiz
  user_answers : List (Nat × String)
  deriving DecidableEq

/-! ### Stored (JSON) document shape

A stored study plan is a JSON object that may be missing any of the four
keys; `none` models an absent key. -/

/-- A stored `study_plan` object; each field is `none` when the key is
absent from the JSON object. -/
structure StoredPlan where
  topics : Option (List String)
  learning_path : Option (List String)
  estimated_time : Option (List (String × String))
  prerequisites : Option (List (String × List String))
  deriving DecidableEq

/-- A stored `topic_progress` entry (`save_progress` always writes both
keys). -/
structure StoredProgress where
  mastery_level : ℚ
  completed : Bool
  deriving DecidableEq

/-- A stored quiz `results` object.  `save_progress` adds the `score` key
only when the topic has a mastery entry, so it is optional. -/
structure StoredResults where
  answers : List (Nat × String)
  score : Option ℚ
  deriving DecidableEq

/-- A stored quiz document.  `save_progress` does not write a `time_limit`
key; `load_progress` reads it with default "10 minutes". -/
structure StoredQuiz where
  topic : String
  questions : List QuizQuestion
  time_limit : Option String
  results : Option StoredResults
  deriving DecidableEq

/-- A stored learning-objective document.  `title` is `none` when the key is
absent or the stored value is JSON null (the source distinguishes these two
— `.get('title', '')` yields the empty string only for an absent key — but
no behaviour modelled here depends on that distinction).
`save_progress` writes no `completed_at` key; `mark_learning_complete` adds
one later. -/
structure StoredObjective where
  title : Option String
  description : Option String
  created_at : Option String
  completed_at : Option String
  study_plan : Option StoredPlan
  topic_progress : Option (List (String × StoredProgress))
  quizzes : Option (List (String × StoredQuiz))
  deriving DecidableEq

/-- A whole per-user document.  The SQLite loader additionally returns
`user_id` and `created_at` keys; `_save_to_json` stamps `last_updated`. -/
structure UserData where
  user_id : Option String
  created_at : Option String
  learning_objectives : Option (List (String × StoredObjective))
  last_updated : Option String
  deriving DecidableEq

/-- The empty document `{}` returned for a user with no stored data. -/
def emptyUserData : UserData :=
  { user_id := none, created_at := none, learning_objectives := none, last_updated := none }

/-! ### Flat-file (JSON) backend, src/ai_tutor/tools/storage.py -/

/-- The flat-file backend: one JSON file per user id. -/
def Store : Type := List (String × UserData)

instance : DecidableEq Store := by unfold Store; infer_instance

/-- `UserProgressStore._save_to_json`: stamps `last_updated` and overwrites
the user's whole file (last-writer-wins). -/
def save_user_progress (store : Store) (uid : String) (data : UserData) (now : String) : Store :=
  alistInsert store uid { data with last_updated := some now }

/-- `UserProgressStore._load_from_json`: returns the stored document, or the
empty dict `{}` when the user's file does not exist. -/
def load_user_progress (store : Store) (uid : String) : UserData :=
  match alistGet store uid with
  | some d => d
  | none => emptyUserData

/-! ### Session state, src/ai_tutor/tools/context.py -/

/-- The `TutorContext` dataclass (SessionState).  The untyped
`learning_session` scratch dict and the storage-configuration fields are not
modelled; the progress store handle is always present (it is constructed in
`__post_init__`). -/
structure TutorContext where
  user_id : String
  learning_objective : Option String
  study_plan : Option StudyPlan
  current_topic : Option String
  vector_store_id : Option String
  mastery_levels : List (String × ℚ)
  completed_topics : List String
  current_quiz : Option Quiz
  current_user_answers : Option (List (Nat × String))
  quiz_results : List (String × QuizResultEntry)
  objective_id : Option String
  deriving DecidableEq

/-- A freshly constructed `TutorContext` for a user (all dataclass defaults,
before any `load_progress`). -/
def freshContext (uid : String) : TutorContext :=
  { user_id := uid
    learning_objective := none
    study_plan := none
    current_topic := none
    vector_store_id := none
    mastery_levels := []
    completed_topics := []
    current_quiz := none
    current_user_answers := none
    quiz_results := []
    objective_id := none }

/-- The `study_plan_data` dict built by `save_progress`: all four keys when a
plan is set, the empty dict `{}` otherwise (the `study_plan` key itself is
always written). -/
def buildStoredPlan : Option StudyPlan → StoredPlan
  | some p => { topics := some p.topics
                learning_path := some p.learning_path
                estimated_time := some p.estimated_time
                prerequisites := some p.prerequisites }
  | none => { topics := none, learning_path := none, estimated_time := none, prerequisites := none }

/-- The `topic_progress` dict built by `save_progress`: one entry per topic of
the current study plan (topics outside the plan are not persisted). -/
def buildTopicProgress (ctx : TutorContext) : List (String × StoredProgress) :=
  let topics := match ctx.study_plan with
    | some p => p.topics
    | none => []
  topics.foldl
    (fun acc topic =>
      alistInsert acc topic
        { mastery_level := (alistGet ctx.mastery_levels topic).getD 0
          completed := ctx.completed_topics.contains topic })
    []

/-- The `quizzes` dict built by `save_progress`; entries whose `quiz` is
missing are skipped, and `score` is added only when the topic has a mastery
entry. -/
def buildQuizzes (ctx : TutorContext) : List (String × StoredQuiz) :=
  ctx.quiz_results.foldl
    (fun acc entry =>
      match entry.2.quiz with
      | none => acc
      | some q =>
        alistInsert acc (ctx.user_id ++ "_" ++ entry.1 ++ "_quiz")
          { topic := entry.1
            questions := q.questions
            time_limit := none
            results := some { answers := entry.2.user_answers
                              score := alistGet ctx.mastery_levels entry.1 } })
    []

/-- The single-objective document built by `save_progress` (no
`completed_at` key is written). -/
def buildObjective (ctx : TutorContext) (now : String) : StoredObjective :=
  { title := ctx.learning_objective
    description := ctx.learning_objective
    created_at := some now
    completed_at := none
    study_plan := some (buildStoredPlan ctx.study_plan)
    topic_progress := some (buildTopicProgress ctx)
    quizzes := some (buildQuizzes ctx) }

/-- `TutorContext.save_progress`: generates an objective id if one is needed
and a learning objective is set, fails when no (truthy) objective id results,
and otherwise overwrites the user's whole document with one containing
exactly the active objective.  `freshId` models `uuid.uuid4()` and `now`
models `time.strftime(...)`. -/
def save_progress (ctx : TutorContext) (freshId now : String) (store : Store) :
    Bool × TutorContext × Store :=
  let ctx' := if !(strTruthy ctx.objective_id) && strTruthy ctx.learning_objective
              then { ctx with objective_id := some freshId } else ctx
  if strTruthy ctx'.objective_id then
    let user_data : UserData :=
      { user_id := none
        created_at := none
        learning_objectives := some [(ctx'.objective_id.getD "", buildObjective ctx' now)]
        last_updated := none }
    (true, ctx', save_user_progress store ctx'.user_id user_data now)
  else (false, ctx', store)

/-- Strict lexicographic order on character lists (the order Python uses to
compare strings, by code point). -/
def charsLt : List Char → List Char → Bool
  | [], [] => false
  | [], _ :: _ => true
  | _ :: _, [] => false
  | a :: as, b :: bs => if a = b then charsLt as bs else decide (a < b)

/-- Lexicographic order (non-strict) on character lists. -/
def charsLe : List Char → List Char → Bool
  | [], _ => true
  | _ :: _, [] => false
  | a :: as, b :: bs => if a = b then charsLe as bs else decide (a < b)

/-- Strict lexicographic order on strings. -/
def strLt (a b : String) : Bool := charsLt a.data b.data

/-- Lexicographic order (non-strict) on strings. -/
def strLe (a b : String) : Bool := charsLe a.data b.data

/-- Sort key for the most-recent-objective selection:
`x[1].get('created_at', '')`. -/
def createdKey (e : String × StoredObjective) : String := e.2.created_at.getD ""

/-- `sorted(learning_objectives.items(), key=..., reverse=True)`: a stable
descending sort by `created_at` (insertion sort with the reversed non-strict
relation is stable the same way Python's sort is). -/
def sortObjectivesDesc (objs : List (String × StoredObjective)) :
    List (String × StoredObjective) :=
  objs.insertionSort (fun a b => strLe (createdKey b) (createdKey a) = true)

/-- `sorted_objectives[0]`: the most recently created objective. -/
def mostRecentObjective (objs : List (String × StoredObjective)) :
    Option (String × StoredObjective) :=
  (sortObjectivesDesc objs).head?

/-- The `topic_progress` loading step of `load_progress`: records the mastery
level and unconditionally appends to `completed_topics` when the stored flag
is set. -/
def applyTopicProgress (ctx : TutorContext) (entry : String × StoredProgress) : TutorContext :=
  let ctx' := { ctx with
    mastery_levels := alistInsert ctx.mastery_levels entry.1 entry.2.mastery_level }
  if entry.2.completed then
    { ctx' with completed_topics := ctx'.completed_topics ++ [entry.1] }
  else ctx'

/-- The `quizzes` loading step of `load_progress`: rebuilds a quiz-results
entry when the stored quiz has a truthy topic and a `results` key. -/
def applyQuizEntry (ctx : TutorContext) (entry : String × StoredQuiz) : TutorContext :=
  let qd := entry.2
  let loaded : QuizResultEntry :=
    { quiz := some { topic := qd.topic
                     questions := qd.questions
                     time_limit := qd.time_limit.getD "10 minutes" }
      user_answers := (qd.results.getD { answers := [], score := none }).answers }
  if !(qd.topic = "") && qd.results.isSome then
    { ctx with quiz_results := alistInsert ctx.quiz_results qd.topic loaded }
  else ctx

/-- The tail of `load_progress` after the study-plan check: loads topic
progress and quiz results, then reports success. -/
def loadRest (ctx : TutorContext) (obj_data : StoredObjective) : Bool × TutorContext :=
  let ctx' := match obj_data.topic_progress with
    | none => ctx
    | some tp => tp.foldl applyTopicProgress ctx
  let ctx'' := match obj_data.quizzes with
    | none => ctx'
    | some qs => qs.foldl applyQuizEntry ctx'
  (true, ctx'')

/-- `TutorContext.load_progress`: selects the most recently created
objective, stores its id and title into the session, fails when a stored
`study_plan` object is missing a required field, and otherwise loads the
plan, topic progress and quizzes. -/
def load_progress (ctx : TutorContext) (store : Store) : Bool × TutorContext :=
  let user_data := load_user_progress store ctx.user_id
  match user_data.learning_objectives with
  | none => (false, ctx)
  | some objs =>
    if objs.isEmpty then (false, ctx)
    else
      match mostRecentObjective objs with
      | none => (false, ctx)
      | some (obj_id, obj_data) =>
        let ctx' := { ctx with objective_id := some obj_id
                               learning_objective := obj_data.title }
        match obj_data.study_plan with
        | some plan =>
          if plan.topics.isSome && plan.learning_path.isSome
              && plan.estimated_time.isSome && plan.prerequisites.isSome then
            let loadedPlan : StudyPlan :=
              { topics := plan.topics.getD []
                learning_path := plan.learning_path.getD []
                estimated_time := plan.estimated_time.getD []
                prerequisites := plan.prerequisites.getD [] }
            loadRest { ctx' with study_plan := some loadedPlan } obj_data
          else (false, ctx')
        | none => loadRest ctx' obj_data

/-- The fixed fallback plan of `create_default_study_plan`. -/
def defaultStudyPlan : StudyPlan :=
  { topics := ["Introduction", "Key Concepts", "Applications", "Advanced Topics"]
    learning_path := ["Introduction", "Key Concepts", "Applications", "Advanced Topics"]
    estimated_time := [("Introduction", "30 minutes"), ("Key Concepts", "30 minutes"),
                       ("Applications", "30 minutes"), ("Advanced Topics", "30 minutes")]
    prerequisites := [] }

/-- `TutorContext.create_default_study_plan`. -/
def create_default_study_plan (ctx : TutorContext) : TutorContext :=
  { ctx with study_plan := some defaultStudyPlan }

/-- The study-plan validation prelude of
`TutorSystem.complete_learning_objective` (tutor_system.py lines 438-449):
substitutes the default plan when none is set or the plan has no topics, and
repairs an empty learning path. -/
def ensureValidStudyPlan (ctx : TutorContext) : TutorContext :=
  let c1 := if ctx.study_plan.isNone then create_default_study_plan ctx else ctx
  let c2 := match c1.study_plan with
    | some p => if p.topics.isEmpty then create_default_study_plan c1 else c1
    | none => create_default_study_plan c1
  match c2.study_plan with
  | some p =>
    if p.learning_path.isEmpty then
      { c2 with study_plan := some { p with learning_path := p.topics } }
    else c2
  | none => c2

/-- `TutorContext.update_mastery_level`: overwrites the topic's mastery
entry, appends to the completed list with set semantics, and persists. -/
def update_mastery_level (ctx : TutorContext) (topic : String) (mastery_level : ℚ)
    (completed : Bool) (freshId now : String) (store : Store) : TutorContext × Store :=
  let c1 := { ctx with mastery_levels := alistInsert ctx.mastery_levels topic mastery_level }
  let c2 := if completed && !(c1.completed_topics.contains topic)
            then { c1 with completed_topics := c1.completed_topics ++ [topic] }
            else c1
  let r := save_progress c2 freshId now store
  (r.2.1, r.2.2)

/-! ### Mastery policy and tools, src/ai_tutor/tools/user_tools.py -/

/-- The mastery-policy decision inside `save_quiz_results`:
`completed = score >= 0.7`.  Scores are modelled as rationals. -/
def masteryDecide (score : ℚ) : Bool := decide (7 / 10 ≤ score)

/-- The core of the `save_quiz_results` tool: computes the completion flag
with the mastery policy and records it through `update_mastery_level` (the
confirmation message returned by the tool is not modelled). -/
def save_quiz_results_tool (ctx : TutorContext) (topic : String) (score : ℚ)
    (freshId now : String) (store : Store) : TutorContext × Store :=
  update_mastery_level ctx topic score (masteryDecide score) freshId now store

/-- The core of the `save_study_plan` tool: sets the learning objective,
replaces the study plan with the submitted one (no validation of any kind is
performed on it), and persists through `save_progress`.  The returned flag is
the success of the save (the source formats it into a confirmation or
failure message). -/
def save_study_plan_tool (ctx : TutorContext) (learning_objective : String)
    (topics learning_path : List String) (estimated_time : List (String × String))
    (prerequisites : Option (List (String × List String)))
    (freshId now : String) (store : Store) : Bool × TutorContext × Store :=
  let submitted : StudyPlan :=
    { topics := topics
      learning_path := learning_path
      estimated_time := estimated_time
      prerequisites := prerequisites.getD [] }
  let c1 := { ctx with learning_objective := some learning_objective }
  let c2 := { c1 with study_plan := some submitted }
  save_progress c2 freshId now store

/-- Modelled from the spec (section 3): the superset invariant that
`recordStudyPlan` is claimed to validate — every topic referenced in
`learning_path` or as a prerequisite appears in `topics`.  This definition
follows the spec's words; no counterpart exists in the source. -/
def specSupersetInvariant (p : StudyPlan) : Bool :=
  p.learning_path.all (fun t => p.topics.contains t)
    && p.prerequisites.all (fun e => e.2.all (fun t => p.topics.contains t))

/-! ### SQLite backend, src/ai_tutor/tools/storage.py

JSON-encoded columns (`topics`, `questions`, `answers`, ...) are modelled
as the decoded values; `feedback` is kept as its raw encoded string. -/

/-- A row of the `learning_objectives` table. -/
structure ObjectiveRow where
  objective_id : String
  user_id : String
  title : String
  description : String
  created_at : String
  completed_at : Option String
  deriving DecidableEq

/-- A row of the `study_plans` table. -/
structure PlanRow where
  plan_id : String
  objective_id : String
  topics : List String
  learning_path : List String
  estimated_time : List (String × String)
  prerequisites : List (String × List String)
  created_at : String
  updated_at : String
  deriving DecidableEq

/-- A row of the `topic_progress` table. -/
structure ProgressRow where
  progress_id : String
  user_id : String
  objective_id : String
  topic : String
  mastery_level : ℚ
  completed : Bool
  last_studied : String
  deriving DecidableEq

/-- A row of the `quizzes` table. -/
structure QuizRow where
  quiz_id : String
  user_id : String
  objective_id : String
  topic : String
  questions : List QuizQuestion
  created_at : String
  deriving DecidableEq

/-- A row of the `quiz_results` table. -/
structure QuizResultRow where
  result_id : String
  quiz_id : String
  user_id : String
  answers : List (Nat × String)
  score : ℚ
  feedback : String
  created_at : String
  deriving DecidableEq

/-- The relational backend's database. -/
structure SqliteDB where
  users : List (String × String)
  objectives : List ObjectiveRow
  plans : List PlanRow
  progress : List ProgressRow
  quizzes : List QuizRow
  results : List QuizResultRow
  deriving DecidableEq

/-- Reconstruction of one objective's document from the relational tables
(the per-objective body of `_load_from_sqlite`). -/
def sqliteObjectiveData (db : SqliteDB) (uid : String) (o : ObjectiveRow) : StoredObjective :=
  let plan := db.plans.find? (fun p => p.objective_id = o.objective_id)
  let tp := (db.progress.filter
      (fun p => p.user_id = uid && p.objective_id = o.objective_id)).map
    (fun p => (p.topic, ({ mastery_level := p.mastery_level
                           completed := p.completed } : StoredProgress)))
  let qs := (db.quizzes.filter
      (fun q => q.user_id = uid && q.objective_id = o.objective_id)).map
    (fun q =>
      let res := db.results.find? (fun r => r.quiz_id = q.quiz_id)
      (q.quiz_id, ({ topic := q.topic
                     questions := q.questions
                     time_limit := none
                     results := res.map (fun r =>
                       { answers := r.answers, score := some r.score }) } : StoredQuiz)))
  { title := some o.title
    description := some o.description
    created_at := some o.created_at
    completed_at := o.completed_at
    study_plan := plan.map (fun p =>
      { topics := some p.topics
        learning_path := some p.learning_path
        estimated_time := some p.estimated_time
        prerequisites := some p.prerequisites })
    topic_progress := some tp
    quizzes := some qs }

/-- `UserProgressStore._load_from_sqlite`: returns the empty dict `{}` when
the user has no row in the `users` table, otherwise reconstructs the nested
document from the normalized tables. -/
def load_from_sqlite (db : SqliteDB) (uid : String) : UserData :=
  match db.users.find? (fun u => u.1 = uid) with
  | none => emptyUserData
  | some u =>
    { user_id := some uid
      created_at := some u.2
      learning_objectives := some
        ((db.objectives.filter (fun o => o.user_id = uid)).map
          (fun o => (o.objective_id, sqliteObjectiveData db uid o)))
      last_updated := none }

/-! ### Handoff orchestrator, src/ai_tutor/tutor_system.py -/

/-- The handoff information attached to a run result: the target agent
(identified by `id(target_agent)`, modelled as a number) and the handoff
message. -/
structure HandoffInfo where
  target_agent : Nat
  handoff_message : String
  deriving DecidableEq

/-- An agent invocation result: its final text and the optional declared
next agent. -/
structure RunResult where
  text : String
  handoff_info : Option HandoffInfo
  deriving DecidableEq

/-- `TutorSystem.process_agent_handoff_chain`, from the current result with
the given set of already-seen handoff targets: runs declared next agents
until one of them was already seen (the loop guard), collecting their
results.  `run` is the opaque agent-invocation mechanism
(`Runner.run(starting_agent, input, ...)`), modelled as a deterministic
function of the agent identity and the handoff message; `fuel` bounds the
recursion (the Python loop is bounded by the number of distinct agent
objects, and every property proved below holds for every fuel). -/
def processChainAux (run : Nat → String → RunResult) :
    Nat → RunResult → List Nat → List RunResult
  | 0, _, _ => []
  | fuel + 1, current, seen =>
    match current.handoff_info with
    | none => []
    | some hi =>
      if seen.contains hi.target_agent then []
      else
        let next := run hi.target_agent hi.handoff_message
        next :: processChainAux run fuel next (hi.target_agent :: seen)

/-- The `handoff_results` list returned by `process_agent_handoff_chain`,
starting from the initial result with an empty seen set (the agent that
produced the initial result is never added to the set). -/
def process_agent_handoff_chain (run : Nat → String → RunResult) (fuel : Nat)
    (initial : RunResult) : List RunResult :=
  processChainAux run fuel initial []

/-- The dictionary returned by `process_agent_handoff_chain`:
`{"initial_result": ..., "handoff_results": [...]}`. -/
structure ChainResults where
  initial_result : RunResult
  handoff_results : List RunResult
  deriving DecidableEq

/-- `process_agent_handoff_chain` packaged with its initial result. -/
def process_chain_all (run : Nat → String → RunResult) (fuel : Nat)
    (initial : RunResult) : ChainResults :=
  { initial_result := initial
    handoff_results := process_agent_handoff_chain run fuel initial }

/-- Whether `pat` is a prefix of the character list. -/
def charsStartWith : List Char → List Char → Bool
  | [], _ => true
  | _ :: _, [] => false
  | p :: ps, c :: cs => p == c && charsStartWith ps cs

/-- Whether `pat` occurs as a contiguous run of the character list. -/
def charsContain (pat : List Char) : List Char → Bool
  | [] => pat.isEmpty
  | c :: cs => charsStartWith pat (c :: cs) || charsContain pat cs

/-- Substring test used by `complete_learning_objective`:
`"LEARNING_COMPLETE" in str(all_results)`, applied to one result's text. -/
def containsMarker (s : String) : Bool :=
  charsContain (String.data "LEARNING_COMPLETE") s.data

/-- The `completed` flag computed by `complete_learning_objective`: the
completion marker occurs somewhere in the string rendering of all results
(initial plus handoff chain). -/
def learningComplete (initial : RunResult) (handoffs : List RunResult) : Bool :=
  containsMarker initial.text || handoffs.any (fun r => containsMarker r.text)

/-! ### Association-list lemmas -/

section AListLemmas

variable {κ α : Type} [DecidableEq κ]

theorem alistGet_insert_self (l : List (κ × α)) (k : κ) (v : α) :
    alistGet (alistInsert l k v) k = some v := by
  induction l with
  | nil => simp [alistInsert, alistGet]
  | cons e rest ih =>
    by_cases h : e.1 = k
    · simp [alistInsert, h, alistGet]
    · simp [alistInsert, h, alistGet, ih]

theorem alistGet_insert_ne (l : List (κ × α)) (k k' : κ) (v : α) (h : k' ≠ k) :
    alistGet (alistInsert l k v) k' = alistGet l k' := by
  have hk : ¬(k = k') := fun e => h e.symm
  induction l with
  | nil => simp [alistInsert, alistGet, hk]
  | cons e rest ih =>
    by_cases he : e.1 = k
    · simp [alistInsert, if_pos he, alistGet, hk, he]
    · simp only [alistInsert, if_neg he, alistGet, ih]

omit [DecidableEq κ] in
theorem alistKeys_nil : alistKeys ([] : List (κ × α)) = [] := rfl

omit [DecidableEq κ] in
theorem alistKeys_cons (e : κ × α) (l : List (κ × α)) :
    alistKeys (e :: l) = e.1 :: alistKeys l := rfl

theorem alistKeys_insert (l : List (κ × α)) (k : κ) (v : α) :
    alistKeys (alistInsert l k v)
      = if k ∈ alistKeys l then alistKeys l else alistKeys l ++ [k] := by
  induction l with
  | nil => simp [alistInsert, alistKeys]
  | cons e rest ih =>
    by_cases he : e.1 = k
    · subst he
      simp [alistInsert, alistKeys_cons, List.mem_cons]
    · have hk : ¬(k = e.1) := fun h2 => he h2.symm
      simp only [alistInsert, if_neg he, alistKeys_cons, ih, List.mem_cons, hk, false_or]
      by_cases hm : k ∈ alistKeys rest <;> simp [hm]

theorem keys_insert_nodup {l : List (κ × α)} {k : κ} {v : α}
    (h : (alistKeys l).Nodup) : (alistKeys (alistInsert l k v)).Nodup := by
  rw [alistKeys_insert]
  by_cases hm : k ∈ alistKeys l
  · simpa [hm] using h
  · simp only [if_neg hm, List.nodup_append, List.nodup_singleton, List.disjoint_left,
      List.mem_singleton]
    exact ⟨h, True.intro, fun a ha hb => hm (hb ▸ ha)⟩

theorem alistGet_eq_none_of_not_mem {l : List (κ × α)} {k : κ}
    (h : k ∉ alistKeys l) : alistGet l k = none := by
  induction l with
  | nil => rfl
  | cons e rest ih =>
    simp only [alistKeys, List.map_cons, List.mem_cons, not_or] at h
    have hne : ¬(e.1 = k) := fun e2 => h.1 e2.symm
    simp only [alistGet, if_neg hne]
    exact ih (by simpa [alistKeys] using h.2)

theorem alistGet_foldl_insert_fn (f : κ → α) (ts : List κ) (acc : List (κ × α)) (k : κ) :
    alistGet (ts.foldl (fun a t => alistInsert a t (f t)) acc) k
      = if k ∈ ts then some (f k) else alistGet acc k := by
  induction ts generalizing acc with
  | nil => simp
  | cons t ts ih =>
    simp only [List.foldl_cons, ih, List.mem_cons]
    by_cases h : k ∈ ts
    · simp [h]
    · by_cases h2 : k = t
      · subst h2
        simp [h, alistGet_insert_self]
      · simp [h, h2, alistGet_insert_ne _ _ _ _ h2]

theorem nodup_keys_foldl_insert (f : κ → α) (ts : List κ) (acc : List (κ × α))
    (h : (alistKeys acc).Nodup) :
    (alistKeys (ts.foldl (fun a t => alistInsert a t (f t)) acc)).Nodup := by
  induction ts generalizing acc with
  | nil => exact h
  | cons t ts ih => exact ih _ (keys_insert_nodup h)

theorem alistGet_foldl_insert_pairs_none {β : Type} (g : β → α) (tp : List (κ × β))
    (m : List (κ × α)) (k : κ) (h : alistGet tp k = none) :
    alistGet (tp.foldl (fun acc e => alistInsert acc e.1 (g e.2)) m) k = alistGet m k := by
  induction tp generalizing m with
  | nil => rfl
  | cons e rest ih =>
    simp only [alistGet] at h
    by_cases he : e.1 = k
    · simp [he] at h
    · simp only [if_neg he] at h
      simp only [List.foldl_cons, ih _ h, alistGet_insert_ne _ _ _ _ (fun e2 => he e2.symm)]

theorem alistGet_foldl_insert_pairs_some {β : Type} (g : β → α) (tp : List (κ × β))
    (m : List (κ × α)) (k : κ) (b : β) (hn : (alistKeys tp).Nodup)
    (h : alistGet tp k = some b) :
    alistGet (tp.foldl (fun acc e => alistInsert acc e.1 (g e.2)) m) k = some (g b) := by
  induction tp generalizing m with
  | nil => simp [alistGet] at h
  | cons e rest ih =>
    simp only [alistKeys, List.map_cons, List.nodup_cons] at hn
    simp only [alistGet] at h
    by_cases he : e.1 = k
    · simp only [if_pos he] at h
      have hb : e.2 = b := by injection h
      subst hb
      have hrest : alistGet rest k = none :=
        alistGet_eq_none_of_not_mem (by rw [← he]; exact hn.1)
      simp only [List.foldl_cons, alistGet_foldl_insert_pairs_none g rest _ k hrest, he,
        alistGet_insert_self]
    · simp only [if_neg he] at h
      simp only [List.foldl_cons]
      exact ih _ hn.2 h

end AListLemmas

/-! ### String-order lemma -/

theorem charsLe_false_of_charsLt :
    ∀ a b : List Char, charsLt a b = true → charsLe b a = false
  | [], [] => by simp [charsLt]
  | [], _ :: _ => by simp [charsLe]
  | _ :: _, [] => by simp [charsLt]
  | a :: as, b :: bs => by
    by_cases hab : a = b
    · subst hab
      simp only [charsLt, charsLe, if_pos rfl]
      exact charsLe_false_of_charsLt as bs
    · have hba : ¬(b = a) := fun e => hab e.symm
      simp only [charsLt, charsLe, if_neg hab, if_neg hba, decide_eq_true_eq,
        decide_eq_false_iff_not]
      exact fun h => not_lt_of_lt h

theorem strLe_false_of_strLt {a b : String} (h : strLt a b = true) : strLe b a = false :=
  charsLe_false_of_charsLt a.data b.data h

/-! ### Projection lemmas for the loading folds -/

theorem applyTopicProgress_mastery (c : TutorContext) (e : String × StoredProgress) :
    (applyTopicProgress c e).mastery_levels
      = alistInsert c.mastery_levels e.1 e.2.mastery_level := by
  unfold applyTopicProgress
  split <;> rfl

theorem applyTopicProgress_objective_id (c : TutorContext) (e : String × StoredProgress) :
    (applyTopicProgress c e).objective_id = c.objective_id := by
  unfold applyTopicProgress
  split <;> rfl

theorem applyQuizEntry_mastery (c : TutorContext) (e : String × StoredQuiz) :
    (applyQuizEntry c e).mastery_levels = c.mastery_levels := by
  simp only [applyQuizEntry]
  split <;> rfl

theorem applyQuizEntry_objective_id (c : TutorContext) (e : String × StoredQuiz) :
    (applyQuizEntry c e).objective_id = c.objective_id := by
  simp only [applyQuizEntry]
  split <;> rfl

theorem foldl_applyTopicProgress_mastery (tp : List (String × StoredProgress))
    (c : TutorContext) :
    (tp.foldl applyTopicProgress c).mastery_levels
      = tp.foldl (fun m e => alistInsert m e.1 e.2.mastery_level) c.mastery_levels := by
  induction tp generalizing c with
  | nil => rfl
  | cons e rest ih =>
    simp only [List.foldl_cons, ih, applyTopicProgress_mastery]

theorem foldl_applyTopicProgress_objective_id (tp : List (String × StoredProgress))
    (c : TutorContext) :
    (tp.foldl applyTopicProgress c).objective_id = c.objective_id := by
  induction tp generalizing c with
  | nil => rfl
  | cons e rest ih =>
    simp only [List.foldl_cons, ih, applyTopicProgress_objective_id]

theorem foldl_applyQuizEntry_mastery (qs : List (String × StoredQuiz)) (c : TutorContext) :
    (qs.foldl applyQuizEntry c).mastery_levels = c.mastery_levels := by
  induction qs generalizing c with
  | nil => rfl
  | cons e rest ih =>
    simp only [List.foldl_cons, ih, applyQuizEntry_mastery]

theorem foldl_applyQuizEntry_objective_id (qs : List (String × StoredQuiz)) (c : TutorContext) :
    (qs.foldl applyQuizEntry c).objective_id = c.objective_id := by
  induction qs generalizing c with
  | nil => rfl
  | cons e rest ih =>
    simp only [List.foldl_cons, ih, applyQuizEntry_objective_id]

theorem loadRest_fst (c : TutorContext) (o : StoredObjective) : (loadRest c o).1 = true := by
  unfold loadRest
  cases o.topic_progress <;> cases o.quizzes <;> rfl

theorem loadRest_objective_id (c : TutorContext) (o : StoredObjective) :
    (loadRest c o).2.objective_id = c.objective_id := by
  unfold loadRest
  cases o.topic_progress <;> cases o.quizzes <;>
    simp [foldl_applyQuizEntry_objective_id, foldl_applyTopicProgress_objective_id]

theorem loadRest_mastery (c : TutorContext) (o : StoredObjective) :
    (loadRest c o).2.mastery_levels
      = (o.topic_progress.getD []).foldl
          (fun m e => alistInsert m e.1 e.2.mastery_level) c.mastery_levels := by
  unfold loadRest
  cases o.topic_progress <;> cases o.quizzes <;>
    simp [foldl_applyQuizEntry_mastery, foldl_applyTopicProgress_mastery]

/-! ### Behaviour of save_progress -/

theorem strTruthy_some_of_ne {s : String} (h : s ≠ "") : strTruthy (some s) = true := by
  simp [strTruthy, h]

/-- A successful `save_progress` overwrites the user's document with a
single-objective record; all session fields except possibly `objective_id`
are untouched. -/
theorem save_progress_spec (ctx : TutorContext) (freshId now : String) (store : Store)
    (h : strTruthy ctx.objective_id = true
         ∨ (strTruthy ctx.learning_objective = true ∧ freshId ≠ "")) :
    ∃ ctx2 : TutorContext,
      save_progress ctx freshId now store
        = (true, ctx2,
            alistInsert store ctx.user_id
              { user_id := none, created_at := none,
                learning_objectives := some
                  [(ctx2.objective_id.getD "", buildObjective ctx2 now)],
                last_updated := some now })
        ∧ ctx2.user_id = ctx.user_id
        ∧ ctx2.learning_objective = ctx.learning_objective
        ∧ ctx2.study_plan = ctx.study_plan
        ∧ ctx2.mastery_levels = ctx.mastery_levels
        ∧ ctx2.completed_topics = ctx.completed_topics
        ∧ ctx2.quiz_results = ctx.quiz_results
        ∧ strTruthy ctx2.objective_id = true
        ∧ (strTruthy ctx.objective_id = false → ctx2.objective_id = some freshId)
        ∧ (strTruthy ctx.objective_id = true → ctx2.objective_id = ctx.objective_id) := by
  cases hc : (!(strTruthy ctx.objective_id) && strTruthy ctx.learning_objective) with
  | true =>
    have hoid : strTruthy ctx.objective_id = false := by
      have := (Bool.and_eq_true _ _).mp hc
      simpa using this.1
    rcases h with h | ⟨hlo, hf⟩
    · rw [hoid] at h
      exact absurd h (by simp)
    · have hfr : strTruthy (some freshId) = true := strTruthy_some_of_ne hf
      refine ⟨{ ctx with objective_id := some freshId }, ?_, rfl, rfl, rfl, rfl, rfl, rfl,
        hfr, fun _ => rfl, fun h2 => absurd h2 (by simp [hoid])⟩
      simp only [save_progress, save_user_progress, hc, if_true]
      simp [hfr]
  | false =>
    have htr : strTruthy ctx.objective_id = true := by
      rcases h with h | ⟨hlo, hf⟩
      · exact h
      · simp only [hlo, Bool.and_true, Bool.not_eq_true'] at hc
        simpa using hc
    refine ⟨ctx, ?_, rfl, rfl, rfl, rfl, rfl, rfl, htr,
      fun h2 => absurd htr (by simp [h2]), fun _ => rfl⟩
    simp only [save_progress, save_user_progress, hc]
    simp [htr]

/-! ### Claim C3: mastery-policy threshold -/

/-- C3: for every score, the mastery-policy decision (`completed = score >=
0.7` in `save_quiz_results`) returns completed=true if and only if the score
is at least 0.7; in particular it is false at 0.0 and 0.69 and true at 0.7
and 1.0.  Scores are modelled as rationals. -/
theorem C3_mastery_threshold :
    (∀ score : ℚ, masteryDecide score = true ↔ 7 / 10 ≤ score)
    ∧ masteryDecide 0 = false
    ∧ masteryDecide (69 / 100) = false
    ∧ masteryDecide (7 / 10) = true
    ∧ masteryDecide 1 = true := by
  refine ⟨fun s => by simp [masteryDecide], ?_, ?_, ?_, ?_⟩ <;> norm_num [masteryDecide]

/-- Witness for C3: the threshold itself satisfies the policy, through the
equivalence. -/
theorem C3_witness : (7 : ℚ) / 10 ≤ 1 :=
  (C3_mastery_threshold.1 1).mp C3_mastery_threshold.2.2.2.2

/-! ### Claim C7: a chain that never declares a next agent -/

/-- C7: when the initial invocation declares no next agent, the handoff
chain halts after that single hop: the returned dictionary holds exactly the
initial result and an empty handoff-result list (the loop body never runs,
for every agent environment and every fuel). -/
theorem C7_single_hop (run : Nat → String → RunResult) (fuel : Nat) (initial : RunResult)
    (h : initial.handoff_info = none) :
    process_chain_all run fuel initial
      = { initial_result := initial, handoff_results := [] } := by
  unfold process_chain_all process_agent_handoff_chain
  cases fuel with
  | zero => simp [processChainAux]
  | succ n => simp [processChainAux, h]

/-- Witness for C7 at a concrete one-hop chain. -/
theorem C7_witness :
    process_chain_all (fun _ _ => { text := "x", handoff_info := none }) 9
        { text := "done", handoff_info := none }
      = { initial_result := { text := "done", handoff_info := none },
          handoff_results := [] } :=
  C7_single_hop _ 9 _ rfl

/-! ### Claim C8: loading a user with no stored data -/

/-- C8: loading a user with no previously stored data returns the empty
document `{}` (not a failure) under both backends: the flat-file loader when
the user's file does not exist, and the SQLite loader when the user has no
row in the users table. -/
theorem C8_empty_load (storeJ : Store) (db : SqliteDB) (uid : String)
    (h1 : alistGet storeJ uid = none)
    (h2 : db.users.find? (fun u => u.1 = uid) = none) :
    load_user_progress storeJ uid = emptyUserData
    ∧ load_from_sqlite db uid = emptyUserData := by
  constructor
  · simp [load_user_progress, h1]
  · simp [load_from_sqlite, h2]

/-- Witness for C8 on the empty store and empty database. -/
theorem C8_witness :
    load_user_progress [] "alice" = emptyUserData
    ∧ load_from_sqlite ⟨[], [], [], [], [], []⟩ "alice" = emptyUserData :=
  C8_empty_load [] ⟨[], [], [], [], [], []⟩ "alice" rfl rfl

/-! ### Claim C10: save with no objective at all -/

/-- C10: when the session has neither a (truthy) objective id nor a (truthy)
learning objective, `save_progress` returns false, leaves the session
unchanged and performs no store write, so the persisted record is
untouched. -/
theorem C10_no_objective_no_write (ctx : TutorContext) (freshId now : String) (store : Store)
    (h1 : strTruthy ctx.objective_id = false)
    (h2 : strTruthy ctx.learning_objective = false) :
    save_progress ctx freshId now store = (false, ctx, store) := by
  simp [save_progress, h1, h2]

/-- Witness for C10 on a fresh session. -/
theorem C10_witness :
    save_progress (freshContext "u") "f" "t0" [] = (false, freshContext "u", []) :=
  C10_no_objective_no_write (freshContext "u") "f" "t0" [] rfl rfl

/-! ### Claim C9: a successful save overwrites the whole record -/

/-- C9: on the flat-file backend, every successful `save_progress` call
overwrites the user's entire stored document with one containing exactly one
learning objective — the active objective id — so objectives previously
stored under other ids are gone after the save. -/
theorem C9_save_overwrites (ctx : TutorContext) (freshId now : String) (store : Store)
    (h : (save_progress ctx freshId now store).1 = true) :
    alistGet (save_progress ctx freshId now store).2.2 ctx.user_id
      = some { user_id := none, created_at := none,
               learning_objectives := some
                 [((save_progress ctx freshId now store).2.1.objective_id.getD "",
                   buildObjective (save_progress ctx freshId now store).2.1 now)],
               last_updated := some now } := by
  have hd : strTruthy ctx.objective_id = true
      ∨ (strTruthy ctx.learning_objective = true ∧ freshId ≠ "") := by
    by_cases ht : strTruthy ctx.objective_id = true
    · exact Or.inl ht
    · have ht2 : strTruthy ctx.objective_id = false := by simpa using ht
      by_cases hlo : strTruthy ctx.learning_objective = true
      · refine Or.inr ⟨hlo, fun hfe => ?_⟩
        subst hfe
        have he : strTruthy (some "") = false := rfl
        simp [save_progress, ht2, hlo, he] at h
      · have hlo2 : strTruthy ctx.learning_objective = false := by simpa using hlo
        simp [save_progress, ht2, hlo2] at h
  obtain ⟨ctx2, heq, -, -, -, -, -, -, -, -, -⟩ :=
    save_progress_spec ctx freshId now store hd
  rw [heq]
  simp [save_user_progress, alistGet_insert_self]

/-- Witness for C9 on a session with an active objective id. -/
theorem C9_witness :
    alistGet (save_progress { freshContext "u" with objective_id := some "o1" } "f" "t0" []).2.2 "u"
      = some { user_id := none, created_at := none,
               learning_objectives := some
                 [((save_progress { freshContext "u" with objective_id := some "o1" }
                      "f" "t0" []).2.1.objective_id.getD "",
                   buildObjective
                     (save_progress { freshContext "u" with objective_id := some "o1" }
                       "f" "t0" []).2.1 "t0")],
               last_updated := some "t0" } :=
  C9_save_overwrites { freshContext "u" with objective_id := some "o1" } "f" "t0" [] rfl

/-! ### Claim C2: the cycle guard -/

/-- Agent environment in which agent 0 always declares agent 0 itself as the
next agent. -/
def selfRun : Nat → String → RunResult :=
  fun _ _ =>
    { text := "again", handoff_info := some { target_agent := 0, handoff_message := "go" } }

/-- The initial result of this chain, produced by invoking agent 0; its
declared next agent is agent 0 itself — an identity already visited earlier
in the chain (by its very first invocation). -/
def selfInitial : RunResult :=
  { text := "start", handoff_info := some { target_agent := 0, handoff_message := "go" } }

/-- C2 counterexample: the claim says that when a declared next agent was
already visited earlier in the chain, the chain halts immediately without
running that agent again, so this chain's handoff-result list would be
empty.  The code's seen set contains only handoff targets — never the agent
of the initial invocation — so agent 0 is run a second time and the result
list grows to length one. -/
theorem C2_counterexample :
    process_agent_handoff_chain selfRun 5 selfInitial
        = [{ text := "again",
             handoff_info := some { target_agent := 0, handoff_message := "go" } }]
    ∧ process_agent_handoff_chain selfRun 5 selfInitial ≠ [] := by
  exact ⟨rfl, by decide⟩

/-- Agent environment for the cycle A→B→A: agent 0 (A) hands to agent 1 (B),
and agent 1 hands back to agent 0. -/
def cycleRun : Nat → String → RunResult :=
  fun a _ =>
    if a = 1 then
      { text := "B teaches", handoff_info := some { target_agent := 0, handoff_message := "toA" } }
    else
      { text := "A plans", handoff_info := some { target_agent := 1, handoff_message := "toB" } }

/-- The initial result of the cyclic chain, produced by invoking agent 0. -/
def cycleInitial : RunResult :=
  { text := "A plans", handoff_info := some { target_agent := 1, handoff_message := "toB" } }

/-- C2 amended: the guard's visited set holds only agents entered via a
handoff (the initial invocation's agent is not in it).  Whenever a declared
next agent is already in that set the chain halts at once without running it
and the result list stops growing; the cycle A→B→A therefore runs the
second A and stops right after it; with no completion marker in any result
the run reports completed=false. -/
theorem C2_cycle_guard_amended :
    (∀ (run : Nat → String → RunResult) (fuel : Nat) (current : RunResult)
        (seen : List Nat) (hi : HandoffInfo),
        current.handoff_info = some hi → seen.contains hi.target_agent = true →
        processChainAux run fuel current seen = [])
    ∧ process_agent_handoff_chain cycleRun 10 cycleInitial
        = [{ text := "B teaches",
             handoff_info := some { target_agent := 0, handoff_message := "toA" } },
           { text := "A plans",
             handoff_info := some { target_agent := 1, handoff_message := "toB" } }]
    ∧ learningComplete cycleInitial (process_agent_handoff_chain cycleRun 10 cycleInitial)
        = false := by
  refine ⟨fun run fuel current seen hi h1 h2 => ?_, rfl, by decide⟩
  cases fuel with
  | zero => rfl
  | succ n =>
    simp [processChainAux, h1]
    simpa using h2

/-- Witness for the guard part of C2 at a concrete seen set. -/
theorem C2_witness :
    processChainAux selfRun 4
        { text := "w", handoff_info := some { target_agent := 7, handoff_message := "m" } }
        [7] = [] :=
  C2_cycle_guard_amended.1 selfRun 4
    { text := "w", handoff_info := some { target_agent := 7, handoff_message := "m" } }
    [7] { target_agent := 7, handoff_message := "m" } rfl rfl

/-! ### Claim C6: two objectives, most-recent selection -/

/-- C6: saving a user record holding two learning objectives and loading it
back returns both; the most-recent-objective selection of `load_progress`
picks the objective whose `created_at` is later (Python compares the
timestamp strings lexicographically), and the session's objective id is set
to it. -/
theorem C6_two_objectives (store : Store) (uid now idA idB : String)
    (objA objB : StoredObjective)
    (h : strLt (createdKey (idA, objA)) (createdKey (idB, objB)) = true) :
    (load_user_progress (save_user_progress store uid
        { user_id := none, created_at := none,
          learning_objectives := some [(idA, objA), (idB, objB)],
          last_updated := none } now) uid).learning_objectives
      = some [(idA, objA), (idB, objB)]
    ∧ mostRecentObjective [(idA, objA), (idB, objB)] = some (idB, objB)
    ∧ (load_progress (freshContext uid) (save_user_progress store uid
        { user_id := none, created_at := none,
          learning_objectives := some [(idA, objA), (idB, objB)],
          last_updated := none } now)).2.objective_id = some idB := by
  have hload : load_user_progress (save_user_progress store uid
      { user_id := none, created_at := none,
        learning_objectives := some [(idA, objA), (idB, objB)],
        last_updated := none } now) uid
      = { user_id := none, created_at := none,
          learning_objectives := some [(idA, objA), (idB, objB)],
          last_updated := some now } := by
    simp [load_user_progress, save_user_progress, alistGet_insert_self]
  have hr : strLe (createdKey (idB, objB)) (createdKey (idA, objA)) = false :=
    strLe_false_of_strLt h
  have hsorted : sortObjectivesDesc [(idA, objA), (idB, objB)] = [(idB, objB), (idA, objA)] := by
    simp [sortObjectivesDesc, List.insertionSort, List.orderedInsert, hr]
  have hmr : mostRecentObjective [(idA, objA), (idB, objB)] = some (idB, objB) := by
    simp [mostRecentObjective, hsorted]
  refine ⟨by rw [hload], hmr, ?_⟩
  have hfu : (freshContext uid).user_id = uid := rfl
  cases hsp : objB.study_plan with
  | none => simp [load_progress, hfu, hload, hmr, hsp, loadRest_objective_id]
  | some plan =>
    by_cases hv : (plan.topics.isSome && plan.learning_path.isSome
        && plan.estimated_time.isSome && plan.prerequisites.isSome) = true
    · simp [load_progress, hfu, hload, hmr, hsp, hv, loadRest_objective_id]
    · simp [load_progress, hfu, hload, hmr, hsp, hv]

/-- Witness for C6 at two concrete objectives. -/
theorem C6_witness :
    (load_user_progress (save_user_progress [] "u"
        { user_id := none, created_at := none,
          learning_objectives := some
            [("o1", { title := some "First", description := none,
                      created_at := some "2024-01-01T00:00:00", completed_at := none,
                      study_plan := none, topic_progress := none, quizzes := none }),
             ("o2", { title := some "Second", description := none,
                      created_at := some "2024-02-01T00:00:00", completed_at := none,
                      study_plan := none, topic_progress := none, quizzes := none })],
          last_updated := none } "t9") "u").learning_objectives
      = some
        [("o1", { title := some "First", description := none,
                  created_at := some "2024-01-01T00:00:00", completed_at := none,
                  study_plan := none, topic_progress := none, quizzes := none }),
         ("o2", { title := some "Second", description := none,
                  created_at := some "2024-02-01T00:00:00", completed_at := none,
                  study_plan := none, topic_progress := none, quizzes := none })]
    ∧ mostRecentObjective
        [("o1", { title := some "First", description := none,
                  created_at := some "2024-01-01T00:00:00", completed_at := none,
                  study_plan := none, topic_progress := none, quizzes := none }),
         ("o2", { title := some "Second", description := none,
                  created_at := some "2024-02-01T00:00:00", completed_at := none,
                  study_plan := none, topic_progress := none, quizzes := none })]
      = some ("o2", { title := some "Second", description := none,
                      created_at := some "2024-02-01T00:00:00", completed_at := none,
                      study_plan := none, topic_progress := none, quizzes := none })
    ∧ (load_progress (freshContext "u") (save_user_progress [] "u"
        { user_id := none, created_at := none,
          learning_objectives := some
            [("o1", { title := some "First", description := none,
                      created_at := some "2024-01-01T00:00:00", completed_at := none,
                      study_plan := none, topic_progress := none, quizzes := none }),
             ("o2", { title := some "Second", description := none,
                      created_at := some "2024-02-01T00:00:00", completed_at := none,
                      study_plan := none, topic_progress := none, quizzes := none })],
          last_updated := none } "t9")).2.objective_id = some "o2" :=
  C6_two_objectives [] "u" "t9" "o1" "o2"
    { title := some "First", description := none,
      created_at := some "2024-01-01T00:00:00", completed_at := none,
      study_plan := none, topic_progress := none, quizzes := none }
    { title := some "Second", description := none,
      created_at := some "2024-02-01T00:00:00", completed_at := none,
      study_plan := none, topic_progress := none, quizzes := none }
    (by decide)

/-! ### Claim C4: invalid stored plan fails the load -/

/-- A stored plan missing the `estimated_time` field. -/
def c4Plan : StoredPlan :=
  { topics := some ["A"], learning_path := some ["A"],
    estimated_time := none, prerequisites := some [] }

/-- A stored objective whose plan is missing a required field. -/
def c4Objective : StoredObjective :=
  { title := some "Algebra", description := none,
    created_at := some "2024-03-01T00:00:00", completed_at := none,
    study_plan := some c4Plan, topic_progress := none, quizzes := none }

/-- A store holding one user whose only objective has the invalid plan. -/
def c4Store : Store :=
  [("u", { user_id := none, created_at := none,
           learning_objectives := some [("obj1", c4Objective)],
           last_updated := none })]

/-- C4 counterexample: the claim says a failed load changes no field of the
session state, but `load_progress` assigns `objective_id` and
`learning_objective` before validating the stored plan, so both fields are
changed even though the load reports failure. -/
theorem C4_counterexample :
    (load_progress (freshContext "u") c4Store).1 = false
    ∧ (freshContext "u").learning_objective = none
    ∧ (load_progress (freshContext "u") c4Store).2.learning_objective = some "Algebra"
    ∧ (freshContext "u").objective_id = none
    ∧ (load_progress (freshContext "u") c4Store).2.objective_id = some "obj1" := by
  refine ⟨rfl, rfl, rfl, rfl, rfl⟩

/-- C4 amended: when the most recent objective's stored plan is missing a
required field, `load_progress` reports failure and leaves the study plan,
mastery levels, completed topics and quiz results untouched — but it does
set `objective_id` and `learning_objective` first; the caller's fallback
(`complete_learning_objective`) then substitutes the fixed four-topic
default plan. -/
theorem C4_invalid_plan_amended (ctx : TutorContext) (store : Store)
    (objs : List (String × StoredObjective)) (oid : String) (obj : StoredObjective)
    (plan : StoredPlan) (c : TutorContext)
    (hud : (load_user_progress store ctx.user_id).learning_objectives = some objs)
    (hne : objs ≠ [])
    (hmr : mostRecentObjective objs = some (oid, obj))
    (hsp : obj.study_plan = some plan)
    (hbad : (plan.topics.isSome && plan.learning_path.isSome
        && plan.estimated_time.isSome && plan.prerequisites.isSome) = false)
    (hc : c.study_plan = none) :
    load_progress ctx store
      = (false, { ctx with objective_id := some oid, learning_objective := obj.title })
    ∧ (ensureValidStudyPlan c).study_plan = some defaultStudyPlan := by
  constructor
  · have hbad2 : ¬(plan.topics.isSome && plan.learning_path.isSome
        && plan.estimated_time.isSome && plan.prerequisites.isSome) = true := by
      simp [hbad]
    simp [load_progress, hud, hne, hmr, hsp, hbad2]
  · simp [ensureValidStudyPlan, create_default_study_plan, hc, defaultStudyPlan]

/-- Witness for C4 at the concrete invalid-plan store. -/
theorem C4_witness :
    load_progress (freshContext "u") c4Store
      = (false, { freshContext "u" with
                  objective_id := some "obj1"
                  learning_objective := some "Algebra" })
    ∧ (ensureValidStudyPlan (freshContext "u")).study_plan = some defaultStudyPlan :=
  C4_invalid_plan_amended (freshContext "u") c4Store
    [("obj1", c4Objective)] "obj1" c4Objective c4Plan (freshContext "u")
    rfl (by decide) rfl rfl rfl rfl

/-! ### Claim C5: save_study_plan does not validate the superset invariant -/

/-- C5 counterexample: the claim says a submitted plan is recorded only if
every topic referenced in `learning_path` or as a prerequisite appears in
`topics`.  Here a plan whose learning path references the unknown topic "B"
violates the invariant, yet the tool reports success and the invalid plan is
persisted verbatim in the user's stored document. -/
theorem C5_counterexample :
    specSupersetInvariant { topics := ["A"], learning_path := ["A", "B"],
                            estimated_time := [], prerequisites := [] } = false
    ∧ (save_study_plan_tool (freshContext "u") "Obj" ["A"] ["A", "B"] [] none
        "obj-1" "t0" []).1 = true
    ∧ alistGet (save_study_plan_tool (freshContext "u") "Obj" ["A"] ["A", "B"] [] none
        "obj-1" "t0" []).2.2 "u"
      = some { user_id := none, created_at := none,
               learning_objectives := some
                 [("obj-1",
                   { title := some "Obj", description := some "Obj",
                     created_at := some "t0", completed_at := none,
                     study_plan := some { topics := some ["A"],
                                          learning_path := some ["A", "B"],
                                          estimated_time := some [],
                                          prerequisites := some [] },
                     topic_progress := some [("A", { mastery_level := 0, completed := false })],
                     quizzes := some [] })],
               last_updated := some "t0" } := by
  refine ⟨rfl, rfl, rfl⟩

/-- C5 amended: `save_study_plan` performs no validation at all — every
submitted plan (valid or not with respect to the superset invariant) is
recorded verbatim; it does assign a new objective id when none is active and
it does persist immediately. -/
theorem C5_record_plan_amended (ctx : TutorContext) (lo : String)
    (topics learning_path : List String) (estimated_time : List (String × String))
    (prerequisites : Option (List (String × List String))) (freshId now : String)
    (store : Store) (hlo : lo ≠ "") (hf : freshId ≠ "") :
    (save_study_plan_tool ctx lo topics learning_path estimated_time prerequisites
        freshId now store).1 = true
    ∧ (save_study_plan_tool ctx lo topics learning_path estimated_time prerequisites
        freshId now store).2.1.study_plan
      = some { topics := topics, learning_path := learning_path,
               estimated_time := estimated_time, prerequisites := prerequisites.getD [] }
    ∧ alistGet (save_study_plan_tool ctx lo topics learning_path estimated_time prerequisites
        freshId now store).2.2 ctx.user_id
      = some { user_id := none, created_at := none,
               learning_objectives := some
                 [((save_study_plan_tool ctx lo topics learning_path estimated_time
                      prerequisites freshId now store).2.1.objective_id.getD "",
                   buildObjective
                     (save_study_plan_tool ctx lo topics learning_path estimated_time
                       prerequisites freshId now store).2.1 now)],
               last_updated := some now }
    ∧ (strTruthy ctx.objective_id = false →
        (save_study_plan_tool ctx lo topics learning_path estimated_time prerequisites
          freshId now store).2.1.objective_id = some freshId) := by
  obtain ⟨ctx2, heq, hu, hlo2, hsp2, hml, hct, hqr, htr, hnew, hold⟩ :=
    save_progress_spec
      { ctx with learning_objective := some lo
                 study_plan := some { topics := topics, learning_path := learning_path,
                                      estimated_time := estimated_time,
                                      prerequisites := prerequisites.getD [] } }
      freshId now store (Or.inr ⟨strTruthy_some_of_ne hlo, hf⟩)
  have heq2 : save_study_plan_tool ctx lo topics learning_path estimated_time prerequisites
      freshId now store
      = save_progress
        { ctx with learning_objective := some lo
                   study_plan := some { topics := topics, learning_path := learning_path,
                                        estimated_time := estimated_time,
                                        prerequisites := prerequisites.getD [] } }
        freshId now store := rfl
  rw [heq2, heq]
  refine ⟨rfl, by simpa using hsp2, by simp [alistGet_insert_self], fun h => hnew h⟩

/-- Witness for C5's amended theorem on a fresh session (the plan may even
be the invalid one — no hypothesis restricts it). -/
theorem C5_witness :
    (save_study_plan_tool (freshContext "w") "Goal" ["A"] ["A", "B"] [] none
        "id-9" "t1" []).1 = true
    ∧ (save_study_plan_tool (freshContext "w") "Goal" ["A"] ["A", "B"] [] none
        "id-9" "t1" []).2.1.study_plan
      = some { topics := ["A"], learning_path := ["A", "B"],
               estimated_time := [], prerequisites := (none : Option (List (String × List String))).getD [] }
    ∧ alistGet (save_study_plan_tool (freshContext "w") "Goal" ["A"] ["A", "B"] [] none
        "id-9" "t1" []).2.2 (freshContext "w").user_id
      = some { user_id := none, created_at := none,
               learning_objectives := some
                 [((save_study_plan_tool (freshContext "w") "Goal" ["A"] ["A", "B"] [] none
                      "id-9" "t1" []).2.1.objective_id.getD "",
                   buildObjective
                     (save_study_plan_tool (freshContext "w") "Goal" ["A"] ["A", "B"] [] none
                       "id-9" "t1" []).2.1 "t1")],
               last_updated := some "t1" }
    ∧ (strTruthy (freshContext "w").objective_id = false →
        (save_study_plan_tool (freshContext "w") "Goal" ["A"] ["A", "B"] [] none
          "id-9" "t1" []).2.1.objective_id = some "id-9") :=
  C5_record_plan_amended (freshContext "w") "Goal" ["A"] ["A", "B"] [] none "id-9" "t1" []
    (by decide) (by decide)

/-! ### Claim C1: mastery round-trip -/

theorem mostRecentObjective_singleton (e : String × StoredObjective) :
    mostRecentObjective [e] = some e := rfl

/-- Loading from a store whose document for the user holds a single
objective with a field-complete plan runs the full loading tail. -/
theorem load_progress_of_doc (ctx : TutorContext) (store : Store) (oid : String)
    (obj : StoredObjective) (sp : StoredPlan)
    (hdoc : (load_user_progress store ctx.user_id).learning_objectives = some [(oid, obj)])
    (hsp : obj.study_plan = some sp)
    (hv : (sp.topics.isSome && sp.learning_path.isSome
        && sp.estimated_time.isSome && sp.prerequisites.isSome) = true) :
    load_progress ctx store
      = loadRest
          { ctx with objective_id := some oid
                     learning_objective := obj.title
                     study_plan := some { topics := sp.topics.getD []
                                          learning_path := sp.learning_path.getD []
                                          estimated_time := sp.estimated_time.getD []
                                          prerequisites := sp.prerequisites.getD [] } }
          obj := by
  simp [load_progress, hdoc, mostRecentObjective_singleton, hsp, hv]

/-- Core of the round-trip: saving a session whose mastery map holds `x` for
a topic of its plan, then loading the same user afresh, restores exactly
`x`. -/
theorem roundtrip_core (c2 : TutorContext) (plan : StudyPlan) (topic : String) (x : ℚ)
    (freshId now : String) (store : Store)
    (hplan : c2.study_plan = some plan)
    (htopic : topic ∈ plan.topics)
    (hget : alistGet c2.mastery_levels topic = some x)
    (hobj : strTruthy c2.objective_id = true
            ∨ (strTruthy c2.learning_objective = true ∧ freshId ≠ "")) :
    (load_progress (freshContext c2.user_id) (save_progress c2 freshId now store).2.2).1 = true
    ∧ alistGet (load_progress (freshContext c2.user_id)
        (save_progress c2 freshId now store).2.2).2.mastery_levels topic = some x := by
  obtain ⟨ctx2, heq, hu, hlo, hsp, hml, hct, hqr, htr, -, -⟩ :=
    save_progress_spec c2 freshId now store hobj
  rw [heq]
  have hdoc : (load_user_progress (alistInsert store c2.user_id
      { user_id := none, created_at := none,
        learning_objectives := some [(ctx2.objective_id.getD "", buildObjective ctx2 now)],
        last_updated := some now }) c2.user_id).learning_objectives
      = some [(ctx2.objective_id.getD "", buildObjective ctx2 now)] := by
    simp [load_user_progress, alistGet_insert_self]
  have hosp : (buildObjective ctx2 now).study_plan = some (buildStoredPlan (some plan)) := by
    simp [buildObjective, hsp, hplan]
  rw [load_progress_of_doc (freshContext c2.user_id) _ _ _ _ hdoc hosp rfl]
  refine ⟨loadRest_fst _ _, ?_⟩
  rw [loadRest_mastery]
  have htopics : buildTopicProgress ctx2
      = plan.topics.foldl
          (fun acc t => alistInsert acc t
            { mastery_level := (alistGet ctx2.mastery_levels t).getD 0
              completed := ctx2.completed_topics.contains t })
          [] := by
    simp [buildTopicProgress, hsp, hplan]
  have hn : (alistKeys (buildTopicProgress ctx2)).Nodup := by
    rw [htopics]
    exact nodup_keys_foldl_insert _ _ _ (by simp [alistKeys])
  have htpget : alistGet (buildTopicProgress ctx2) topic
      = some { mastery_level := (alistGet ctx2.mastery_levels topic).getD 0
               completed := ctx2.completed_topics.contains topic } := by
    rw [htopics, alistGet_foldl_insert_fn]
    simp [htopic]
  have hmain := alistGet_foldl_insert_pairs_some
    (fun p : StoredProgress => p.mastery_level) (buildTopicProgress ctx2)
    ([] : List (String × ℚ)) topic
    { mastery_level := (alistGet ctx2.mastery_levels topic).getD 0
      completed := ctx2.completed_topics.contains topic } hn htpget
  exact hmain.trans (by simp [hml, hget])

/-- A session with an active objective whose study plan covers only topic
"A". -/
def c1Ctx : TutorContext :=
  { freshContext "u" with
      learning_objective := some "Obj"
      objective_id := some "o1"
      study_plan := some { topics := ["A"], learning_path := ["A"],
                           estimated_time := [("A", "30 minutes")], prerequisites := [] } }

/-- C1 counterexample: recording mastery 1/2 for topic "B" — a topic not in
the study plan — and then loading the user afresh yields no mastery entry
for "B" at all (the load itself succeeds): `save_progress` persists
`topic_progress` only for topics of the current plan, so the recorded level
is silently dropped and the round-trip does not return 1/2. -/
theorem C1_counterexample :
    (load_progress (freshContext "u")
        (update_mastery_level c1Ctx "B" (1 / 2) false "f" "t0" []).2).1 = true
    ∧ alistGet (load_progress (freshContext "u")
        (update_mastery_level c1Ctx "B" (1 / 2) false "f" "t0" []).2).2.mastery_levels "B"
      = none := by
  exact ⟨by decide, by decide⟩

/-- C1 amended: for a session whose study plan contains the topic and which
has an active objective (a truthy objective id, or a truthy learning
objective so a fresh id is generated), `update_mastery_level(topic, x, _)`
followed by a fresh load of the same user yields mastery exactly `x` for
that topic. -/
theorem C1_roundtrip_amended (ctx : TutorContext) (plan : StudyPlan) (topic : String)
    (x : ℚ) (completed : Bool) (freshId now : String) (store : Store)
    (hplan : ctx.study_plan = some plan)
    (htopic : topic ∈ plan.topics)
    (hobj : strTruthy ctx.objective_id = true
            ∨ (strTruthy ctx.learning_objective = true ∧ freshId ≠ "")) :
    (load_progress (freshContext ctx.user_id)
        (update_mastery_level ctx topic x completed freshId now store).2).1 = true
    ∧ alistGet (load_progress (freshContext ctx.user_id)
        (update_mastery_level ctx topic x completed freshId now store).2).2.mastery_levels
        topic
      = some x := by
  simp only [update_mastery_level]
  split <;>
    exact roundtrip_core _ plan topic x freshId now store hplan htopic
      (alistGet_insert_self _ _ _) hobj

/-- Witness for C1's amended round-trip at a concrete session and topic. -/
theorem C1_witness :
    (load_progress (freshContext "u")
        (update_mastery_level c1Ctx "A" (3 / 4) true "f" "t0" []).2).1 = true
    ∧ alistGet (load_progress (freshContext "u")
        (update_mastery_level c1Ctx "A" (3 / 4) true "f" "t0" []).2).2.mastery_levels "A"
      = some (3 / 4) :=
  C1_roundtrip_amended c1Ctx
    { topics := ["A"], learning_path := ["A"],
      estimated_time := [("A", "30 minutes")], prerequisites := [] }
    "A" (3 / 4) true "f" "t0" [] rfl (by decide) (Or.inl (by decide))

end AiTutor
